import Mathlib

/-!
Verification of the spdx-tools tag-value/RDF builder layer.

The development shallowly embeds, in Lean, the builder methods of
spdx/parsers/rdfbuilders.py, the actor sub-parser of
src/spdx_tools/spdx/parser/actor_parser.py and
src/spdx_tools/spdx/spdx_element_utils.py, together with a model of the
tag-value parse driver (whose implementation is exercised only through its
tests in this tree, and therefore is modelled from the design document).
Python-specific primitives (str.split, str.strip, truthiness, regex
matching for the three fixed actor patterns) are embedded as executable
Lean functions over character lists.
-/

/-- Python single-separator split: s.split(sep) for a one-character separator.
It always yields at least one (possibly empty) piece. -/
def pySplit (sep : Char) : List Char → List (List Char)
  | [] => [[]]
  | c :: rest =>
    if c = sep then [] :: pySplit sep rest
    else
      match pySplit sep rest with
      | [] => [[c]]
      | h :: t => (c :: h) :: t

/-- Last piece of a Python split, i.e. value.split(sep)[-1], as a String. -/
def pySplitLast (sep : Char) (s : String) : String :=
  String.mk ((pySplit sep s.data).getLastD [])

/-- Python ASCII whitespace (the characters matched by str.strip() and by
the regex class backslash-s on ASCII input). -/
def pyIsSpace (c : Char) : Bool :=
  c = ' ' || c = '\t' || c = '\n' || c = '\x0d' || c = '\x0b' || c = '\x0c'

/-- Python str.strip(): drop leading and trailing whitespace. -/
def pyStrip (l : List Char) : List Char :=
  ((l.dropWhile pyIsSpace).reverse.dropWhile pyIsSpace).reverse

/-- Replace the last element of a list, leaving the rest unchanged
(models a mutation of list[-1] in the source). -/
def updateLast (f : α → α) : List α → List α
  | [] => []
  | [a] => [f a]
  | a :: b :: rest => a :: updateLast f (b :: rest)

namespace Rdf

/-- Error classes raised by the builders
(spdx.parsers.builderexceptions; only the class and message are relevant). -/
inductive BuilderError where
  | cardinality (msg : String)
  | order (msg : String)
  | value (msg : String)
deriving DecidableEq, Repr

/-- A checksum value (spdx.checksum.Checksum): algorithm identifier and value. -/
structure Checksum where
  identifier : String
  value : String
deriving DecidableEq, Repr

/-- An external package reference (spdx.package.ExternalPackageRef); the
keyword constructors in the source leave the remaining fields None. -/
structure ExternalPackageRef where
  category : Option String := none
  pkg_ext_ref_type : Option String := none
  locator : Option String := none
  comment : Option String := none
deriving DecidableEq, Repr

instance : Inhabited ExternalPackageRef := ⟨{}⟩

/-- The package fields touched by the embedded PackageBuilder methods. -/
structure Package where
  name : String := ""
  source_info : Option String := none
  verif_code : Option String := none
  license_comment : Option String := none
  cr_text : Option String := none
  summary : Option String := none
  description : Option String := none
  comment : Option String := none
  pkg_ext_refs : List ExternalPackageRef := []
  checksums : List Checksum := []
deriving DecidableEq, Repr

instance : Inhabited Package := ⟨{}⟩

/-- The file fields touched by the embedded FileBuilder methods. -/
structure SpdxFile where
  name : String := ""
  license_comment : Option String := none
  copyright : Option String := none
  comment : Option String := none
  notice : Option String := none
  checksums : List Checksum := []
deriving DecidableEq, Repr

/-- The snippet fields touched by the embedded SnippetBuilder methods. -/
structure Snippet where
  license_comment : Option String := none
  comment : Option String := none
  copyright : Option String := none
deriving DecidableEq, Repr

/-- A license record. Modelled from the spec: the license module is an
external collaborator; License.from_identifier keeps the identifier
it was constructed from. -/
structure License where
  identifier : String
deriving DecidableEq, Repr

def License.from_identifier (identifier : String) : License := ⟨identifier⟩

/-- The document fields touched by the embedded builder methods; the source
keeps current entities as the last element of each list (doc.packages[-1],
doc.snippet[-1], ...). -/
structure Document where
  data_license : Option License := none
  name : Option String := none
  spdx_id : Option String := none
  comment : Option String := none
  doc_namespace : Option String := none
  packages : List Package := []
  files : List SpdxFile := []
  snippet : List Snippet := []
deriving DecidableEq, Repr

/-- The per-parse "field already set" flags of the mixed-in builder classes
(reset() initializes every flag to False). -/
structure Builder where
  doc_version_set : Bool := false
  doc_comment_set : Bool := false
  doc_namespace_set : Bool := false
  doc_data_lics_set : Bool := false
  doc_name_set : Bool := false
  doc_spdx_id_set : Bool := false
  package_source_info_set : Bool := false
  snippet_lic_comment_set : Bool := false
  snippet_comment_set : Bool := false
  file_license_comment_set : Bool := false
  file_copytext_set : Bool := false
deriving DecidableEq, Repr

/-- Outcome of one builder method call: the (possibly mutated) builder and
document, plus the exception raised, if any. Python mutates in place and
then raises, so mutations performed before a raise are kept. -/
structure SetResult where
  b : Builder
  doc : Document
  err : Option BuilderError
deriving DecidableEq, Repr

/-- Modelled from the spec: tagvaluebuilders.PackageBuilder.assert_package_exists
is not under src; per the spec a field tag is illegal (OrderError) when no
entity of its kind is open, and the current package is doc.packages[-1]. -/
def package_exists (doc : Document) : Bool := !doc.packages.isEmpty

/-- Modelled from the spec: tagvaluebuilders.SnippetBuilder.assert_snippet_exists
is not under src; the current snippet is doc.snippet[-1]. -/
def snippet_exists (doc : Document) : Bool := !doc.snippet.isEmpty

/-- Modelled from the spec: tagvaluebuilders.FileBuilder.has_package is not
under src; it reports whether a current package is open. -/
def has_package (doc : Document) : Bool := !doc.packages.isEmpty

/-- Modelled from the spec: tagvaluebuilders.FileBuilder.has_file is not
under src; it reports whether a current file is open. -/
def has_file (doc : Document) : Bool := !doc.files.isEmpty

def updateLastPkg (doc : Document) (f : Package → Package) : Document :=
  { doc with packages := updateLast f doc.packages }

def updateLastFile (doc : Document) (f : SpdxFile → SpdxFile) : Document :=
  { doc with files := updateLast f doc.files }

/-- Modelled from the spec: file.set_checksum / package.set_checksum are not
under src; checksums are keyed by algorithm, re-setting the same algorithm
is an update (last tag wins). -/
def setChecksum (l : List Checksum) (c : Checksum) : List Checksum :=
  if l.any (fun x => x.identifier = c.identifier) then
    l.map (fun x => if x.identifier = c.identifier then c else x)
  else
    l ++ [c]

/-- DocBuilder.set_doc_data_lic: split the value on "/", take the last part
as the license identifier; the SPDXValueError branch guards an empty split
result. -/
def set_doc_data_lic (b : Builder) (doc : Document) (res : String) : SetResult :=
  if !b.doc_data_lics_set then
    let b := { b with doc_data_lics_set := true }
    let res_parts := (pySplit '/' res.data).map String.mk
    if res_parts.length ≠ 0 then
      let identifier := res_parts.getLastD ""
      ⟨b, { doc with data_license := some (License.from_identifier identifier) }, none⟩
    else
      ⟨b, doc, some (.value "Document::License")⟩
  else
    ⟨b, doc, some (.cardinality "Document::License")⟩

/-- DocBuilder.set_doc_namespace; the validator is an external collaborator
(spdx.parsers.validations), taken as a parameter. The already-defined branch
raises CardinalityError("Document::Comment") — exactly as in the source. -/
def set_doc_namespace (validate_doc_namespace : String → Bool)
    (b : Builder) (doc : Document) (ns : String) : SetResult :=
  if !b.doc_namespace_set then
    let b := { b with doc_namespace_set := true }
    if validate_doc_namespace ns then
      ⟨b, { doc with doc_namespace := some ns }, none⟩
    else
      ⟨b, doc, some (.value "Document::Namespace")⟩
  else
    ⟨b, doc, some (.cardinality "Document::Comment")⟩

/-- PackageBuilder.set_pkg_source_info. -/
def set_pkg_source_info (b : Builder) (doc : Document) (text : String) : SetResult :=
  if !package_exists doc then ⟨b, doc, some (.order "Package")⟩
  else if !b.package_source_info_set then
    ⟨{ b with package_source_info_set := true },
     updateLastPkg doc (fun p => { p with source_info := some text }), none⟩
  else
    ⟨b, doc, some (.cardinality "Package::SourceInfo")⟩

/-- SnippetBuilder.set_snippet_lic_comment. In the already-set branch the
source evaluates CardinalityError("Snippet::licenseComments") without
raising it, so the call returns silently with nothing changed. -/
def set_snippet_lic_comment (b : Builder) (doc : Document) (lic_comment : String) : SetResult :=
  if !snippet_exists doc then ⟨b, doc, some (.order "Snippet")⟩
  else if !b.snippet_lic_comment_set then
    ⟨{ b with snippet_lic_comment_set := true },
     { doc with snippet :=
         updateLast (fun s => { s with license_comment := some lic_comment }) doc.snippet },
     none⟩
  else
    ⟨b, doc, none⟩

/-- SnippetBuilder.set_snippet_comment (this sibling does raise on a second set). -/
def set_snippet_comment (b : Builder) (doc : Document) (comment : String) : SetResult :=
  if !snippet_exists doc then ⟨b, doc, some (.order "Snippet")⟩
  else if !b.snippet_comment_set then
    ⟨{ b with snippet_comment_set := true },
     { doc with snippet :=
         updateLast (fun s => { s with comment := some comment }) doc.snippet },
     none⟩
  else
    ⟨b, doc, some (.cardinality "Snippet::comment")⟩

/-- FileBuilder.set_file_checksum (Checksum branch): when no file is open the
method falls through without raising and returns None. -/
def set_file_checksum (b : Builder) (doc : Document) (chk_sum : Checksum) : SetResult :=
  if has_file doc then
    ⟨b, updateLastFile doc (fun f => { f with checksums := setChecksum f.checksums chk_sum }),
     none⟩
  else
    ⟨b, doc, none⟩

/-- FileBuilder.set_file_license_comment: requires both a package and a file. -/
def set_file_license_comment (b : Builder) (doc : Document) (text : String) : SetResult :=
  if has_package doc && has_file doc then
    if !b.file_license_comment_set then
      ⟨{ b with file_license_comment_set := true },
       updateLastFile doc (fun f => { f with license_comment := some text }), none⟩
    else
      ⟨b, doc, some (.cardinality "File::LicenseComment")⟩
  else
    ⟨b, doc, some (.order "File::LicenseComment")⟩

/-- FileBuilder.set_file_copyright: requires both a package and a file. -/
def set_file_copyright (b : Builder) (doc : Document) (text : String) : SetResult :=
  if has_package doc && has_file doc then
    if !b.file_copytext_set then
      ⟨{ b with file_copytext_set := true },
       updateLastFile doc (fun f => { f with copyright := some text }), none⟩
    else
      ⟨b, doc, some (.cardinality "File::CopyRight")⟩
  else
    ⟨b, doc, some (.order "File::CopyRight")⟩

/-- Normalization performed by set_pkg_ext_ref_category:
category.split("_")[-1], then the PACKAGE-MANAGER spelling fix
(str.lower() embedded per character, as Python lowercases ASCII). -/
def normalizeCategory (category : String) : String :=
  let c := pySplitLast '_' category
  if String.mk (c.data.map Char.toLower) = "packagemanager" then "PACKAGE-MANAGER" else c

/-- Normalization performed by set_pkg_ext_ref_type:
split on "#" when present, otherwise on "/", taking the last part. -/
def normalizeExtRefType (typ : String) : String :=
  if typ.data.contains '#' then pySplitLast '#' typ else pySplitLast '/' typ

/-- External refs of the current package (doc.packages[-1].pkg_ext_refs). -/
def lastPkgRefs (doc : Document) : List ExternalPackageRef :=
  (doc.packages.getLastD {}).pkg_ext_refs

/-- PackageBuilder.set_pkg_ext_ref_category: attach the category to the last
open ref when its category is still None, otherwise append a new ref.
The validator is an external collaborator, taken as a parameter. -/
def set_pkg_ext_ref_category (validate_category : String → Bool)
    (b : Builder) (doc : Document) (category : String) : SetResult :=
  if !package_exists doc then ⟨b, doc, some (.order "Package")⟩
  else
    let category := normalizeCategory category
    if validate_category category then
      if !(lastPkgRefs doc).isEmpty && ((lastPkgRefs doc).getLastD {}).category.isNone then
        ⟨b, updateLastPkg doc (fun p =>
            { p with pkg_ext_refs :=
                updateLast (fun r => { r with category := some category }) p.pkg_ext_refs }),
         none⟩
      else
        ⟨b, updateLastPkg doc (fun p =>
            { p with pkg_ext_refs := p.pkg_ext_refs ++ [{ category := some category }] }),
         none⟩
    else
      ⟨b, doc, some (.value "ExternalRef::Category")⟩

/-- PackageBuilder.set_pkg_ext_ref_type: attach the type to the last open ref
when its type is still None, otherwise append a new ref. -/
def set_pkg_ext_ref_type (validate_type : String → Bool)
    (b : Builder) (doc : Document) (typ : String) : SetResult :=
  if !package_exists doc then ⟨b, doc, some (.order "Package")⟩
  else
    let typ := normalizeExtRefType typ
    if validate_type typ then
      if !(lastPkgRefs doc).isEmpty && ((lastPkgRefs doc).getLastD {}).pkg_ext_ref_type.isNone then
        ⟨b, updateLastPkg doc (fun p =>
            { p with pkg_ext_refs :=
                updateLast (fun r => { r with pkg_ext_ref_type := some typ }) p.pkg_ext_refs }),
         none⟩
      else
        ⟨b, updateLastPkg doc (fun p =>
            { p with pkg_ext_refs := p.pkg_ext_refs ++ [{ pkg_ext_ref_type := some typ }] }),
         none⟩
    else
      ⟨b, doc, some (.value "ExternalRef::Type")⟩

/-- A reference is completed once both its category and its type are present. -/
def refComplete (r : ExternalPackageRef) : Prop :=
  r.category ≠ none ∧ r.pkg_ext_ref_type ≠ none

/-- One category- or type-setting operation on the current package. -/
inductive ExtRefOp where
  | cat (c : String)
  | typ (t : String)

/-- Apply one external-ref operation; a raised exception leaves the document
as the method left it (the source mutates nothing before these raises). -/
def applyExtRefOp (vC vT : String → Bool) (b : Builder) (doc : Document) : ExtRefOp → Document
  | .cat c => (set_pkg_ext_ref_category vC b doc c).doc
  | .typ t => (set_pkg_ext_ref_type vT b doc t).doc

/-- Apply a sequence of external-ref operations in order. -/
def applyExtRefOps (vC vT : String → Bool) (b : Builder) (doc : Document) :
    List ExtRefOp → Document
  | [] => doc
  | op :: ops => applyExtRefOps vC vT b (applyExtRefOp vC vT b doc op) ops

end Rdf

namespace ActorP

/-- Parsed actor variants (spdx_tools.spdx.model.Actor; the Tool pattern
captures no email group). -/
inductive PActor where
  | tool (name : String)
  | person (name : String) (email : Option String)
  | organization (name : String) (email : Option String)
deriving DecidableEq, Repr

/-- Length of the maximal whitespace prefix, i.e. how far a greedy
backslash-s-star can reach. -/
def wsLen (l : List Char) : Nat := (l.takeWhile pyIsSpace).length

/-- Start position chosen by the regex engine for the capture that follows a
greedy backslash-s-star: the largest i not beyond the whitespace prefix at
which a character accepted by the capture class p is available (the engine
backtracks the star one character at a time). -/
def btStart (p : Char → Bool) (l : List Char) : Option Nat :=
  (List.range (wsLen l + 1)).reverse.find?
    (fun i => match l.get? i with | some c => p c | none => false)

/-- Greedy capture of the class p from the backtracked start position.
For Tool the class is "any character but a newline" (the dot of "(.+)");
for Person/Organization it is "any character but an opening paren". -/
def reCapture (p : Char → Bool) (l : List Char) : Option (List Char) :=
  (btStart p l).map (fun i => (l.drop i).takeWhile p)

/-- Group 4 of the Person/Organization patterns: the optional
parenthesized part "(\\((.*)\\))?" tried at the given suffix. The dot-star
cannot cross a newline and backtracks to the last closing paren available on
the line; when no closing paren is reachable the optional group matches
empty and group 4 is absent. -/
def emailGroup (after : List Char) : Option (List Char) :=
  match after with
  | '(' :: tl =>
    let run := tl.takeWhile (fun c => c ≠ '\n')
    match (List.range run.length).reverse.find? (fun j => run.get? j = some ')') with
    | some j => some (run.take j)
    | none => none
  | _ => none

/-- Result of tool_re.match: group 1, when the pattern matches. -/
def toolMatch (s : String) : Option (List Char) :=
  if "Tool:".data.isPrefixOf s.data then
    reCapture (fun c => c ≠ '\n') (s.data.drop 5)
  else none

/-- Shared core of person_re / org_re after their literal prefix:
groups 1 and 4. -/
def personCore (rest : List Char) : Option (List Char × Option (List Char)) :=
  (btStart (fun c => c ≠ '(') rest).map (fun i =>
    let g1 := (rest.drop i).takeWhile (fun c => c ≠ '(')
    (g1, emailGroup (rest.drop (i + g1.length))))

/-- Result of person_re.match: groups 1 and 4, when the pattern matches. -/
def personMatch (s : String) : Option (List Char × Option (List Char)) :=
  if "Person:".data.isPrefixOf s.data then personCore (s.data.drop 7) else none

/-- Result of org_re.match: groups 1 and 4, when the pattern matches. -/
def orgMatch (s : String) : Option (List Char × Option (List Char)) :=
  if "Organization:".data.isPrefixOf s.data then personCore (s.data.drop 13) else none

/-- ActorParser.get_email_or_none: the raw group 4, kept only when truthy
and non-blank, stripped. -/
def get_email_or_none (g4 : Option (List Char)) : Option String :=
  match g4 with
  | some e => if !e.isEmpty && !(pyStrip e).isEmpty then some (String.mk (pyStrip e)) else none
  | none => none

def toolNoName (s : String) : String := "No name for Tool provided: " ++ s ++ "."

def personNoName (s : String) : String := "No name for Person provided: " ++ s ++ "."

def orgNoName (s : String) : String := "No name for Organization provided: " ++ s ++ "."

def noMatchMsg (s : String) : String :=
  "Actor " ++ s ++ " doesn" ++ "\x27" ++ "t match any of person, organization or tool."

/-- ActorParser.parse_actor: the three patterns are matched and the first
match (in the order Tool, Person, Organization) wins; the captured name is
stripped and must be non-empty; failures carry the message list of the
raised SPDXParsingError. -/
def parse_actor (s : String) : Except (List String) PActor :=
  match toolMatch s with
  | some g1 =>
    let name := String.mk (pyStrip g1)
    if name = "" then .error [toolNoName s] else .ok (.tool name)
  | none =>
    match personMatch s with
    | some (g1, g4) =>
      let name := String.mk (pyStrip g1)
      if name = "" then .error [personNoName s]
      else .ok (.person name (get_email_or_none g4))
    | none =>
      match orgMatch s with
      | some (g1, g4) =>
        let name := String.mk (pyStrip g1)
        if name = "" then .error [orgNoName s]
        else .ok (.organization name (get_email_or_none g4))
      | none => .error [noMatchMsg s]

end ActorP

namespace Utils

/-- An external document reference as consulted by get_full_element_spdx_id. -/
structure ExternalDocumentRef where
  document_ref_id : String
  document_uri : String
deriving DecidableEq, Repr

/-- Failures of get_full_element_spdx_id: the documented "external id not
found" ValueError, or the ValueError raised by the two-variable unpacking
of split(":") when it yields more than two parts. -/
inductive SpdxIdError where
  | externalIdNotFound (external_id : String)
  | unpack (parts : Nat)
deriving DecidableEq, Repr

/-- The for-loop over external_document_refs: first entry whose
document_ref_id equals external_id, stopping at the break. -/
def findExternalUri (refs : List ExternalDocumentRef) (external_id : String) : Option String :=
  match refs with
  | [] => none
  | e :: rest =>
    if e.document_ref_id = external_id then some e.document_uri
    else findExternalUri rest external_id

/-- get_full_element_spdx_id (spdx_element_utils.py). The element argument is
represented by its spdx_id, the only attribute read. "if not external_uri"
is Python truthiness: both a missing entry and an empty uri raise. -/
def get_full_element_spdx_id (spdx_id : String) (document_namespace : String)
    (external_document_refs : List ExternalDocumentRef) : Except SpdxIdError String :=
  if !spdx_id.data.contains ':' then
    .ok (document_namespace ++ "#" ++ spdx_id)
  else
    match pySplit ':' spdx_id.data with
    | [ext, loc] =>
      let external_id := String.mk ext
      let local_id := String.mk loc
      match findExternalUri external_document_refs external_id with
      | some u =>
        if u = "" then .error (.externalIdNotFound external_id)
        else .ok (u ++ "#" ++ local_id)
      | none => .error (.externalIdNotFound external_id)
    | parts => .error (.unpack parts.length)

end Utils

namespace TV

/-!
Modelled from the spec: the tag-value parse driver
(spdx_tools.spdx.parser.tagvalue.parser.Parser) is exercised in this tree
only through its tests, so the driver below is built from the design
document: a token is one (tag, value) record with its line number; each tag
is dispatched against the current entities; OrderError/SPDXValueError-class
failures are recorded and parsing continues; an unknown tag or a missing
document root aborts immediately; at end of input a non-empty error list
fails the parse, otherwise the document is returned; a File opened while a
Package is current yields a CONTAINS candidate that is synthesized unless
an explicit Relationship for that exact pair occurs in the document. The
modelled tag set is the representative subset used by the claims; entity
identifiers are the values of their opening tags.
-/

/-- Modelled from the spec: one logical (tag, value) record of the tokenizer. -/
structure Token where
  tag : String
  value : String
deriving DecidableEq, Repr

/-- Modelled from the spec: a relationship triple. -/
structure MRel where
  spdx_element_id : String
  relationship_type : String
  related_spdx_element : String
deriving DecidableEq, Repr

/-- Modelled from the spec: the ordered stream of relationship events — an
explicitly declared relationship, or a candidate CONTAINS edge recorded
when a file opens under a current package. -/
inductive RelEvent where
  | explicitRel (r : MRel)
  | candidate (pkg file : String)
deriving DecidableEq, Repr

/-- Modelled from the spec: a package under construction. -/
structure MPackage where
  name : String
  download_location : Option String := none
deriving DecidableEq, Repr

/-- Modelled from the spec: a file under construction. -/
structure MFile where
  name : String
  checksums : List String := []
deriving DecidableEq, Repr

/-- Modelled from the spec: the in-progress ParseContext. -/
structure MState where
  doc_spdx_id : Option String := none
  cur_package : Option String := none
  cur_file : Option String := none
  packages : List MPackage := []
  files : List MFile := []
  rel_events : List RelEvent := []
  errors : List String := []
deriving DecidableEq, Repr

/-- Modelled from the spec: the finished document. -/
structure MDoc where
  spdx_id : String
  packages : List MPackage
  files : List MFile
  relationships : List MRel
deriving DecidableEq, Repr

def initState : MState := {}

/-- Modelled from the spec: the non-SPDXID tags with a handler in this model. -/
def entityTags : List String :=
  ["PackageName", "PackageDownloadLocation", "FileName", "FileChecksum", "Relationship"]

/-- Modelled from the spec: the closed set of relationship type names. -/
def relTypes : List String :=
  ["DESCRIBES", "DESCRIBED_BY", "CONTAINS", "CONTAINED_BY", "DEPENDS_ON", "PATCH_FOR", "OTHER"]

/-- Recorded (non-fatal) message for a field tag whose entity kind is not in
scope, in the wording of the tested driver. -/
def scopeErr (element opener : String) (n : Nat) : String :=
  s!"Element {element} is not the current element in scope, probably the expected tag to start the element ({opener}) is missing. Line: {n}"

def unknownTagMsg (tag : String) (n : Nat) : String :=
  s!"Unknown tag {tag}. Line: {n}"

def missingRootMsg (n : Nat) : String :=
  s!"Missing document root (SPDXID) before entity tag. Line: {n}"

def relSplitMsg (n : Nat) : String :=
  s!"Relationship could not be split in spdx_element_id, relationship_type and related_spdx_element. Line: {n}"

def relTypeMsg (t : String) (n : Nat) : String :=
  s!"Invalid RelationshipType {t}. Line: {n}"

/-- Modelled from the spec: process one token. Fatal failures (unknown tag,
missing document root) return the final error payload immediately; recorded
failures append a message and continue. -/
def step (n : Nat) (t : Token) (st : MState) : Except (List String) MState :=
  if t.tag = "SPDXID" then
    .ok (if st.doc_spdx_id = none then { st with doc_spdx_id := some t.value } else st)
  else if t.tag ∈ entityTags then
    if st.doc_spdx_id = none then
      .error (st.errors ++ [missingRootMsg n])
    else if t.tag = "PackageName" then
      .ok { st with cur_package := some t.value, packages := st.packages ++ [⟨t.value, none⟩] }
    else if t.tag = "PackageDownloadLocation" then
      match st.cur_package with
      | none => .ok { st with errors := st.errors ++ [scopeErr "Package" "PackageName" n] }
      | some _ =>
        .ok { st with packages :=
                updateLast (fun p => { p with download_location := some t.value }) st.packages }
    else if t.tag = "FileName" then
      .ok { st with
        cur_file := some t.value,
        files := st.files ++ [⟨t.value, []⟩],
        rel_events := st.rel_events ++
          (match st.cur_package with
           | some p => [.candidate p t.value]
           | none => []) }
    else if t.tag = "FileChecksum" then
      match st.cur_file with
      | none => .ok { st with errors := st.errors ++ [scopeErr "File" "FileName" n] }
      | some _ =>
        .ok { st with files :=
                updateLast (fun f => { f with checksums := f.checksums ++ [t.value] }) st.files }
    else
      match (pySplit ' ' t.value.data).map String.mk with
      | [a, ty, c] =>
        if ty ∈ relTypes then
          .ok { st with rel_events := st.rel_events ++ [.explicitRel ⟨a, ty, c⟩] }
        else
          .ok { st with errors := st.errors ++ [relTypeMsg ty n] }
      | _ => .ok { st with errors := st.errors ++ [relSplitMsg n] }
  else
    .error (st.errors ++ [unknownTagMsg t.tag n])

/-- Modelled from the spec: run the driver over the token stream, counting
line numbers from n. -/
def run (n : Nat) (toks : List Token) (st : MState) : Except (List String) MState :=
  match toks with
  | [] => .ok st
  | t :: rest =>
    match step n t st with
    | .ok st' => run (n + 1) rest st'
    | .error e => .error e

/-- Modelled from the spec: true when an explicit Relationship between this
exact pair occurs among the events. -/
def hasExplicitPair (events : List RelEvent) (p f : String) : Bool :=
  events.any (fun e =>
    match e with
    | .explicitRel r => r.spdx_element_id = p && r.related_spdx_element = f
    | .candidate _ _ => false)

/-- Modelled from the spec: synthesize CONTAINS relationships from candidates
without a matching explicit relationship, keeping declaration order,
interleaved with the explicit relationships. -/
def synthesize (events : List RelEvent) : List MRel :=
  events.filterMap (fun e =>
    match e with
    | .explicitRel r => some r
    | .candidate p f =>
      if hasExplicitPair events p f then none else some ⟨p, "CONTAINS", f⟩)

/-- Modelled from the spec: assemble the finished document. -/
def finalize (st : MState) : MDoc :=
  { spdx_id := st.doc_spdx_id.getD "",
    packages := st.packages,
    files := st.files,
    relationships := synthesize st.rel_events }

/-- Modelled from the spec: the single entry point — a Document only when
the accumulated error list is empty, otherwise the full ordered error list. -/
def parse (toks : List Token) : Except (List String) MDoc :=
  match run 1 toks initState with
  | .error msgs => .error msgs
  | .ok st => if st.errors = [] then .ok (finalize st) else .error st.errors

end TV

theorem pySplit_ne_nil (sep : Char) (l : List Char) : pySplit sep l ≠ [] := by
  cases l with
  | nil => simp [pySplit]
  | cons c rest =>
    simp only [pySplit]
    split
    · simp
    · split
      · simp
      · simp

theorem pySplit_length (sep : Char) (l : List Char) :
    (pySplit sep l).length = l.count sep + 1 := by
  induction l with
  | nil => simp [pySplit]
  | cons c rest ih =>
    simp only [pySplit]
    split
    · simp_all [List.count_cons]
    · cases h : pySplit sep rest with
      | nil => exact absurd h (pySplit_ne_nil sep rest)
      | cons x xs =>
        rw [h] at ih
        simp_all [List.count_cons]

theorem updateLast_length (f : α → α) (l : List α) :
    (updateLast f l).length = l.length := by
  induction l with
  | nil => rfl
  | cons a rest ih =>
    cases rest with
    | nil => rfl
    | cons b t => simpa [updateLast] using ih

theorem updateLast_get_of_lt (f : α → α) (l : List α) (i : Nat)
    (hi : i < l.length) (hlast : i + 1 < l.length)
    (hi' : i < (updateLast f l).length) :
    (updateLast f l).get ⟨i, hi'⟩ = l.get ⟨i, hi⟩ := by
  induction l generalizing i with
  | nil => simp at hi
  | cons a rest ih =>
    cases rest with
    | nil => simp at hlast
    | cons b t =>
      cases i with
      | zero => rfl
      | succ j =>
        simp only [updateLast]
        have hj : j < (b :: t).length := by
          simpa using Nat.lt_of_succ_lt_succ hi
        have hj2 : j + 1 < (b :: t).length := by
          simpa using Nat.lt_of_succ_lt_succ hlast
        have hj' : j < (updateLast f (b :: t)).length := by
          rw [updateLast_length]; exact hj
        simpa using ih j hj hj2 hj'

theorem updateLast_getLast? (f : α → α) (l : List α) :
    (updateLast f l).getLast? = l.getLast?.map f := by
  induction l with
  | nil => rfl
  | cons a rest ih =>
    cases rest with
    | nil => rfl
    | cons b t =>
      cases h : updateLast f (b :: t) with
      | nil =>
        have hlen := updateLast_length f (b :: t)
        rw [h] at hlen
        simp at hlen
      | cons x xs =>
        rw [h] at ih
        show (a :: updateLast f (b :: t)).getLast? = ((a :: b :: t).getLast?).map f
        rw [h, List.getLast?_cons_cons, ih, List.getLast?_cons_cons]

theorem getLast?_map (f : α → β) (l : List α) :
    (l.map f).getLast? = l.getLast?.map f := by
  induction l with
  | nil => rfl
  | cons a rest ih =>
    cases rest with
    | nil => rfl
    | cons b t =>
      simpa [List.getLast?_cons_cons] using ih

theorem getLastD_map_of_ne_nil (f : α → β) (l : List α) (d : β) (e : α) (h : l ≠ []) :
    (l.map f).getLastD d = f (l.getLastD e) := by
  cases hl : l.getLast? with
  | none => exact absurd (List.getLast?_eq_none_iff.mp hl) h
  | some a =>
    rw [List.getLastD_eq_getLast?, List.getLastD_eq_getLast?, getLast?_map, hl]
    rfl

theorem getLastD_of_getLast? (l : List α) (d a : α) (h : l.getLast? = some a) :
    l.getLastD d = a := by
  rw [List.getLastD_eq_getLast?, h]
  rfl

theorem get_last_index_eq_getLastD (l : List α) (d : α) (i : Nat) (hi : i < l.length)
    (h : i + 1 = l.length) : l.get ⟨i, hi⟩ = l.getLastD d := by
  induction l generalizing i with
  | nil => simp at hi
  | cons a rest ih =>
    cases rest with
    | nil =>
      have : i = 0 := by simpa using h
      subst this
      rfl
    | cons b t =>
      cases i with
      | zero => simp at h
      | succ j =>
        have hj : j < (b :: t).length := by simpa using Nat.lt_of_succ_lt_succ hi
        have hj1 : j + 1 = (b :: t).length := by simpa using Nat.succ_injective h
        have := ih j hj hj1
        simpa [List.getLastD_cons] using this

/-- Claim C2 (code bug): the second snippet license-comment set returns
silently (the CardinalityError is constructed but never raised), and the
second namespace set raises CardinalityError("Document::Comment"), which
does not name the namespace field. -/
theorem claim2_cardinality_code_bug :
    (Rdf.set_snippet_lic_comment {} { snippet := [{}] } "first" =
      ⟨{ snippet_lic_comment_set := true },
       { snippet := [{ license_comment := some "first" }] }, none⟩)
  ∧ (Rdf.set_snippet_lic_comment { snippet_lic_comment_set := true }
      { snippet := [{ license_comment := some "first" }] } "second" =
      ⟨{ snippet_lic_comment_set := true },
       { snippet := [{ license_comment := some "first" }] }, none⟩)
  ∧ (Rdf.set_doc_namespace (fun _ => true) {} {} "http://ns.example/one" =
      ⟨{ doc_namespace_set := true }, { doc_namespace := some "http://ns.example/one" }, none⟩)
  ∧ (Rdf.set_doc_namespace (fun _ => true) { doc_namespace_set := true }
      { doc_namespace := some "http://ns.example/one" } "http://ns.example/two" =
      ⟨{ doc_namespace_set := true }, { doc_namespace := some "http://ns.example/one" },
       some (.cardinality "Document::Comment")⟩)
  ∧ Rdf.BuilderError.cardinality "Document::Comment" ≠
      Rdf.BuilderError.cardinality "Document::Namespace" := by
  refine ⟨rfl, rfl, rfl, rfl, ?_⟩
  decide

/-- Claim C3, counterexample: with no file open, the RDF file checksum setter
raises no OrderError at all — it silently returns with nothing changed. -/
theorem claim3_counterexample :
    Rdf.has_file ({} : Rdf.Document) = false ∧
    Rdf.set_file_checksum {} {} ⟨"SHA1", "d6a770ba38583ed4bb4525bd96e50461655d2759"⟩ =
      ⟨{}, {}, none⟩ := by
  exact ⟨rfl, rfl⟩

/-- Claim C3 (amended): every embedded field setter raises OrderError when no
entity of its kind is open — the package setters (source info, external-ref
category, external-ref type) with no package, the snippet setters (comment,
license comment) with no snippet, and the file setters (license comment,
copyright) with no file — except the RDF file checksum setter, which
silently no-ops; in the parse driver an OrderError-class failure is
recorded as a non-fatal message and processing continues with the
remaining tokens. -/
theorem claim3_order_error_policy :
    ∀ (b : Rdf.Builder) (doc : Rdf.Document) (text comment lic_comment cat typ : String)
      (vC vT : String → Bool) (chk : Rdf.Checksum)
      (st : TV.MState) (rest : List TV.Token) (n : Nat) (v : String),
    (Rdf.package_exists doc = false →
      Rdf.set_pkg_source_info b doc text = ⟨b, doc, some (.order "Package")⟩
      ∧ Rdf.set_pkg_ext_ref_category vC b doc cat = ⟨b, doc, some (.order "Package")⟩
      ∧ Rdf.set_pkg_ext_ref_type vT b doc typ = ⟨b, doc, some (.order "Package")⟩)
  ∧ (Rdf.snippet_exists doc = false →
      Rdf.set_snippet_comment b doc comment = ⟨b, doc, some (.order "Snippet")⟩
      ∧ Rdf.set_snippet_lic_comment b doc lic_comment = ⟨b, doc, some (.order "Snippet")⟩)
  ∧ (Rdf.has_file doc = false →
      Rdf.set_file_license_comment b doc text = ⟨b, doc, some (.order "File::LicenseComment")⟩
      ∧ Rdf.set_file_copyright b doc text = ⟨b, doc, some (.order "File::CopyRight")⟩
      ∧ Rdf.set_file_checksum b doc chk = ⟨b, doc, none⟩)
  ∧ (st.cur_package = none → st.doc_spdx_id ≠ none →
      TV.run n (⟨"PackageDownloadLocation", v⟩ :: rest) st =
        TV.run (n + 1) rest
          { st with errors := st.errors ++ [TV.scopeErr "Package" "PackageName" n] }) := by
  intro b doc text comment lic_comment cat typ vC vT chk st rest n v
  refine ⟨?_, ?_, ?_, ?_⟩
  · intro h
    refine ⟨?_, ?_, ?_⟩
    · simp [Rdf.set_pkg_source_info, h]
    · simp [Rdf.set_pkg_ext_ref_category, h]
    · simp [Rdf.set_pkg_ext_ref_type, h]
  · intro h
    refine ⟨?_, ?_⟩
    · simp [Rdf.set_snippet_comment, h]
    · simp [Rdf.set_snippet_lic_comment, h]
  · intro h
    refine ⟨?_, ?_, ?_⟩
    · simp [Rdf.set_file_license_comment, h]
    · simp [Rdf.set_file_copyright, h]
    · simp [Rdf.set_file_checksum, h]
  · intro h1 h2
    simp only [TV.run, TV.step]
    rw [if_neg (by decide), if_pos (by decide), if_neg h2, if_neg (by decide),
      if_pos (by decide)]
    rw [h1]

/-- Claim C3 witness. -/
theorem claim3_witness :
    Rdf.package_exists ({} : Rdf.Document) = false ∧
    Rdf.set_pkg_source_info {} {} "info" = ⟨{}, {}, some (.order "Package")⟩ := by
  refine ⟨rfl, ?_⟩
  exact ((claim3_order_error_policy {} {} "info" "c" "lc" "cat" "typ"
    (fun _ => true) (fun _ => true) ⟨"SHA1", "x"⟩ {} [] 1 "v").1 rfl).1

/-- Claim C5: a Package declaration followed by two File declarations with no
explicit Relationship tags yields exactly the two synthesized CONTAINS
relationships Package→File1 and Package→File2, in file-declaration order. -/
theorem claim5_contains_synthesis (d p f1 f2 : String) :
    TV.parse [⟨"SPDXID", d⟩, ⟨"PackageName", p⟩, ⟨"FileName", f1⟩, ⟨"FileName", f2⟩] =
      .ok ⟨d, [⟨p, none⟩], [⟨f1, []⟩, ⟨f2, []⟩],
           [⟨p, "CONTAINS", f1⟩, ⟨p, "CONTAINS", f2⟩]⟩ := by
  rfl

/-- Claim C8, counterexample: with a current File but no Package open, the
file license-comment and copyright setters raise OrderError instead of
succeeding. -/
theorem claim8_counterexample :
    Rdf.has_file { files := [{}] } = true ∧
    Rdf.has_package { files := [{}] } = false ∧
    Rdf.set_file_license_comment {} { files := [{}] } "lc" =
      ⟨{}, { files := [{}] }, some (.order "File::LicenseComment")⟩ ∧
    Rdf.set_file_copyright {} { files := [{}] } "cr" =
      ⟨{}, { files := [{}] }, some (.order "File::CopyRight")⟩ := by
  exact ⟨rfl, rfl, rfl, rfl⟩

/-- Claim C8 (amended): the file license-comment and copyright setters
require both a current Package and a current File; for a document-level
file (no package open) they raise OrderError, and they succeed exactly when
both are open and the corresponding set-once flag is clear — with both open
and the flag already set they raise CardinalityError, not success. -/
theorem claim8_doc_level_file_order_error :
    ∀ (b : Rdf.Builder) (doc : Rdf.Document) (text : String),
    ((Rdf.has_package doc && Rdf.has_file doc) = false →
      Rdf.set_file_license_comment b doc text =
        ⟨b, doc, some (.order "File::LicenseComment")⟩
      ∧ Rdf.set_file_copyright b doc text = ⟨b, doc, some (.order "File::CopyRight")⟩)
  ∧ ((Rdf.has_package doc && Rdf.has_file doc) = true →
      (b.file_license_comment_set = false →
        Rdf.set_file_license_comment b doc text =
          ⟨{ b with file_license_comment_set := true },
           Rdf.updateLastFile doc (fun f => { f with license_comment := some text }), none⟩)
      ∧ (b.file_copytext_set = false →
        Rdf.set_file_copyright b doc text =
          ⟨{ b with file_copytext_set := true },
           Rdf.updateLastFile doc (fun f => { f with copyright := some text }), none⟩))
  ∧ ((Rdf.has_package doc && Rdf.has_file doc) = true →
      (b.file_license_comment_set = true →
        Rdf.set_file_license_comment b doc text =
          ⟨b, doc, some (.cardinality "File::LicenseComment")⟩)
      ∧ (b.file_copytext_set = true →
        Rdf.set_file_copyright b doc text =
          ⟨b, doc, some (.cardinality "File::CopyRight")⟩)) := by
  intro b doc text
  refine ⟨?_, ?_, ?_⟩
  · intro h
    constructor
    · simp [Rdf.set_file_license_comment, h]
    · simp [Rdf.set_file_copyright, h]
  · intro h
    constructor
    · intro hb
      simp [Rdf.set_file_license_comment, h, hb]
    · intro hb
      simp [Rdf.set_file_copyright, h, hb]
  · intro h
    constructor
    · intro hb
      simp [Rdf.set_file_license_comment, h, hb]
    · intro hb
      simp [Rdf.set_file_copyright, h, hb]

/-- Claim C8 witness. -/
theorem claim8_witness :
    (Rdf.has_package { files := [{}] } && Rdf.has_file { files := [{}] }) = false ∧
    Rdf.set_file_license_comment {} { files := [{}] } "lc" =
      ⟨{}, { files := [{}] }, some (.order "File::LicenseComment")⟩ := by
  refine ⟨rfl, ?_⟩
  exact ((claim8_doc_level_file_order_error {} { files := [{}] } "lc").1 rfl).1

/-- Claim C9: when the data-license flag is clear, set_doc_data_lic never
raises SPDXValueError — the split on "/" is never empty, so the malformed
branch is unreachable and the license is assigned from the last segment. -/
theorem claim9_data_lic_total :
    ∀ (b : Rdf.Builder) (doc : Rdf.Document) (res : String),
    b.doc_data_lics_set = false →
    Rdf.set_doc_data_lic b doc res =
      ⟨{ b with doc_data_lics_set := true },
       { doc with data_license := some (Rdf.License.from_identifier (pySplitLast '/' res)) },
       none⟩ := by
  intro b doc res h
  have hne : pySplit '/' res.data ≠ [] := pySplit_ne_nil '/' res.data
  have hlen : ((pySplit '/' res.data).map String.mk).length ≠ 0 := by
    simpa using fun hc => hne (List.eq_nil_of_length_eq_zero hc)
  have hlast : ((pySplit '/' res.data).map String.mk).getLastD "" =
      String.mk ((pySplit '/' res.data).getLastD []) :=
    getLastD_map_of_ne_nil String.mk (pySplit '/' res.data) "" [] hne
  simp only [Rdf.set_doc_data_lic, h, Bool.not_false, if_pos, if_true]
  rw [if_pos hlen, hlast]
  rfl

/-- Claim C9 witness. -/
theorem claim9_witness :
    ({} : Rdf.Builder).doc_data_lics_set = false ∧
    Rdf.set_doc_data_lic {} {} "http://spdx.org/licenses/CC0-1.0" =
      ⟨{ doc_data_lics_set := true },
       { data_license := some ⟨"CC0-1.0"⟩ }, none⟩ := by
  refine ⟨rfl, ?_⟩
  have h := claim9_data_lic_total {} {} "http://spdx.org/licenses/CC0-1.0" rfl
  rw [h]
  rfl

theorem step_error_shape (n : Nat) (t : TV.Token) (st : TV.MState) (e : List String)
    (h : TV.step n t st = .error e) : ∃ m, e = st.errors ++ [m] := by
  unfold TV.step at h
  repeat' split at h
  all_goals simp only [Except.ok.injEq, Except.error.injEq, reduceCtorEq] at h
  all_goals first
    | exact h.elim
    | exact ⟨_, h.symm⟩

theorem run_error_ne_nil (toks : List TV.Token) : ∀ (n : Nat) (st : TV.MState) (e : List String),
    TV.run n toks st = .error e → e ≠ [] := by
  induction toks with
  | nil =>
    intro n st e h
    simp [TV.run] at h
  | cons t ts ih =>
    intro n st e h
    simp only [TV.run] at h
    cases hs : TV.step n t st with
    | ok st' =>
      rw [hs] at h
      exact ih (n + 1) st' e h
    | error e' =>
      rw [hs] at h
      simp only [Except.error.injEq] at h
      obtain ⟨m, hm⟩ := step_error_shape n t st e' hs
      subst h
      simp [hm]

/-- Claim C1: the top-level parse returns either a document built from an
error-free run, or the run's full ordered error list (never empty), and
never a document together with errors. -/
theorem claim1_all_or_nothing (toks : List TV.Token) :
    (∀ doc, TV.parse toks = .ok doc →
      ∃ st, TV.run 1 toks TV.initState = .ok st ∧ st.errors = [] ∧ doc = TV.finalize st)
  ∧ (∀ msgs, TV.parse toks = .error msgs → msgs ≠ [] ∧
      ((∃ st, TV.run 1 toks TV.initState = .ok st ∧ msgs = st.errors) ∨
        TV.run 1 toks TV.initState = .error msgs)) := by
  constructor
  · intro doc h
    cases hr : TV.run 1 toks TV.initState with
    | error e =>
      simp only [TV.parse, hr, reduceCtorEq] at h
    | ok st =>
      simp only [TV.parse, hr] at h
      by_cases he : st.errors = []
      · rw [if_pos he] at h
        simp only [Except.ok.injEq] at h
        exact ⟨st, rfl, he, h.symm⟩
      · rw [if_neg he] at h
        exact absurd h (by simp)
  · intro msgs h
    cases hr : TV.run 1 toks TV.initState with
    | error e =>
      simp only [TV.parse, hr, Except.error.injEq] at h
      exact ⟨h ▸ run_error_ne_nil toks 1 TV.initState e hr,
        Or.inr (congrArg Except.error h)⟩
    | ok st =>
      simp only [TV.parse, hr] at h
      by_cases he : st.errors = []
      · rw [if_pos he] at h
        exact absurd h (by simp)
      · rw [if_neg he] at h
        simp only [Except.error.injEq] at h
        exact ⟨h ▸ he, Or.inl ⟨st, rfl, h.symm⟩⟩

/-- Claim C1 witness. -/
theorem claim1_witness :
    TV.parse [⟨"SPDXID", "SPDXRef-DOCUMENT"⟩] = .ok ⟨"SPDXRef-DOCUMENT", [], [], []⟩ ∧
    ∃ st, TV.run 1 [⟨"SPDXID", "SPDXRef-DOCUMENT"⟩] TV.initState = .ok st ∧
      st.errors = [] ∧ (⟨"SPDXRef-DOCUMENT", [], [], []⟩ : TV.MDoc) = TV.finalize st :=
  ⟨rfl, (claim1_all_or_nothing [⟨"SPDXID", "SPDXRef-DOCUMENT"⟩]).1 _ rfl⟩

theorem run_append (pre rest : List TV.Token) : ∀ (n : Nat) (st : TV.MState),
    TV.run n (pre ++ rest) st =
      (match TV.run n pre st with
       | .ok st' => TV.run (n + pre.length) rest st'
       | .error e => .error e) := by
  induction pre with
  | nil =>
    intro n st
    simp [TV.run]
  | cons t ts ih =>
    intro n st
    simp only [List.cons_append, TV.run]
    cases hs : TV.step n t st with
    | ok st' =>
      dsimp only
      rw [List.append_eq, ih (n + 1) st']
      have harith : n + 1 + ts.length = n + (t :: ts).length := by
        simp only [List.length_cons]
        omega
      rw [harith]
    | error e =>
      rfl

/-- Claim C4: when the tokens before an unknown tag process without a fatal
error, the parse aborts at the unknown tag with the Unknown-tag message
carrying its line number; the result is the same for every continuation, so
no error originating after the unknown tag is ever reported. -/
theorem claim4_unknown_tag_aborts (pre post : List TV.Token) (name value : String)
    (st : TV.MState) (h1 : name ≠ "SPDXID") (h2 : name ∉ TV.entityTags)
    (h3 : TV.run 1 pre TV.initState = .ok st) :
    TV.parse (pre ++ ⟨name, value⟩ :: post) =
      .error (st.errors ++ [TV.unknownTagMsg name (1 + pre.length)]) := by
  unfold TV.parse
  rw [run_append, h3]
  simp only [TV.run, TV.step]
  rw [if_neg h1, if_neg (by simpa using h2)]

/-- Claim C4 witness. -/
theorem claim4_witness :
    ("UnknownTag" ≠ "SPDXID") ∧ "UnknownTag" ∉ TV.entityTags ∧
    TV.parse [⟨"SPDXID", "SPDXRef-DOCUMENT"⟩, ⟨"UnknownTag", "v"⟩, ⟨"FileName", "F"⟩] =
      .error [TV.unknownTagMsg "UnknownTag" 2] := by
  refine ⟨by decide, by decide, ?_⟩
  have h := claim4_unknown_tag_aborts [⟨"SPDXID", "SPDXRef-DOCUMENT"⟩] [⟨"FileName", "F"⟩]
    "UnknownTag" "v" { doc_spdx_id := some "SPDXRef-DOCUMENT" } (by decide) (by decide) rfl
  simpa using h

/-- Claim C10, counterexample: with one colon and a prefix that does match an
external document ref, the function still raises the not-found ValueError
when that ref carries an empty document_uri ("if not external_uri" is
truthiness, not a None check). -/
theorem claim10_counterexample :
    Utils.findExternalUri [⟨"DocumentRef-A", ""⟩] "DocumentRef-A" = some "" ∧
    ("DocumentRef-A:SPDXRef-x".data.count ':' = 1) ∧
    Utils.get_full_element_spdx_id "DocumentRef-A:SPDXRef-x" "http://ns" [⟨"DocumentRef-A", ""⟩] =
      .error (.externalIdNotFound "DocumentRef-A") := by
  refine ⟨rfl, by decide, rfl⟩

/-- Claim C10 (amended): without a colon the result is namespace#spdx_id;
with exactly one colon the documented ValueError is raised exactly when the
prefix matches no external document ref or the first matching ref has an
empty document_uri, and otherwise the result is that ref's uri#local-part;
with two or more colons the two-variable unpacking itself fails, so callers
receive the unpack failure, not the documented ValueError. -/
theorem claim10_full_spdx_id (spdx_id ns : String) (refs : List Utils.ExternalDocumentRef) :
    (spdx_id.data.count ':' = 0 →
      Utils.get_full_element_spdx_id spdx_id ns refs = .ok (ns ++ "#" ++ spdx_id))
  ∧ (∀ ext loc, pySplit ':' spdx_id.data = [ext, loc] →
      ((Utils.get_full_element_spdx_id spdx_id ns refs =
          .error (.externalIdNotFound (String.mk ext))) ↔
        (Utils.findExternalUri refs (String.mk ext) = none ∨
         Utils.findExternalUri refs (String.mk ext) = some ""))
      ∧ (∀ u, Utils.findExternalUri refs (String.mk ext) = some u → u ≠ "" →
          Utils.get_full_element_spdx_id spdx_id ns refs = .ok (u ++ "#" ++ String.mk loc)))
  ∧ (2 ≤ spdx_id.data.count ':' →
      Utils.get_full_element_spdx_id spdx_id ns refs =
        .error (.unpack (spdx_id.data.count ':' + 1))
      ∧ ∀ e, Utils.SpdxIdError.unpack (spdx_id.data.count ':' + 1) ≠ .externalIdNotFound e) := by
  refine ⟨?_, ?_, ?_⟩
  · intro h0
    have hmem : ':' ∉ spdx_id.data := List.count_eq_zero.mp h0
    have hc : (!spdx_id.data.contains ':') = true := by
      simpa using hmem
    simp only [Utils.get_full_element_spdx_id]
    rw [if_pos hc]
  · intro ext loc hp
    have hcount : spdx_id.data.count ':' = 1 := by
      have hl := pySplit_length ':' spdx_id.data
      rw [hp] at hl
      simp only [List.length_cons, List.length_nil] at hl
      omega
    have hmem : ':' ∈ spdx_id.data := by
      by_contra hn
      rw [List.count_eq_zero.mpr hn] at hcount
      omega
    have hc : ¬((!spdx_id.data.contains ':') = true) := by
      simp [List.contains, List.elem_eq_mem, hmem]
    constructor
    · simp only [Utils.get_full_element_spdx_id]
      rw [if_neg hc]
      simp only [hp]
      cases hf : Utils.findExternalUri refs (String.mk ext) with
      | none => simp
      | some u =>
        by_cases hu : u = ""
        · subst hu
          simp
        · simp [hu]
    · intro u hf hu
      simp only [Utils.get_full_element_spdx_id]
      rw [if_neg hc]
      simp only [hp, hf]
      rw [if_neg hu]
  · intro h2
    have hmem : ':' ∈ spdx_id.data := by
      by_contra hn
      rw [List.count_eq_zero.mpr hn] at h2
      omega
    have hc : ¬((!spdx_id.data.contains ':') = true) := by
      simp [List.contains, List.elem_eq_mem, hmem]
    have hlen : (pySplit ':' spdx_id.data).length = spdx_id.data.count ':' + 1 :=
      pySplit_length ':' spdx_id.data
    refine ⟨?_, by intro e; simp⟩
    cases hp : pySplit ':' spdx_id.data with
    | nil => exact absurd hp (pySplit_ne_nil ':' spdx_id.data)
    | cons x xs =>
      cases xs with
      | nil =>
        rw [hp] at hlen
        simp only [List.length_cons, List.length_nil] at hlen
        omega
      | cons y ys =>
        cases ys with
        | nil =>
          rw [hp] at hlen
          simp only [List.length_cons, List.length_nil] at hlen
          omega
        | cons z zs =>
          simp only [Utils.get_full_element_spdx_id]
          rw [if_neg hc]
          simp only [hp]
          rw [hp] at hlen
          rw [hlen]

/-- Claim C10 witness. -/
theorem claim10_witness :
    pySplit ':' "DocumentRef-A:SPDXRef-x".data = ["DocumentRef-A".data, "SPDXRef-x".data] ∧
    Utils.get_full_element_spdx_id "DocumentRef-A:SPDXRef-x" "http://ns"
      [⟨"DocumentRef-A", "http://u"⟩] = .ok "http://u#SPDXRef-x" := by
  refine ⟨by decide, ?_⟩
  have h := ((claim10_full_spdx_id "DocumentRef-A:SPDXRef-x" "http://ns"
    [⟨"DocumentRef-A", "http://u"⟩]).2.1 "DocumentRef-A".data "SPDXRef-x".data (by decide)).2
    "http://u" rfl (by decide)
  rw [h]
  rfl

theorem updateLast_get?_of_lt (f : α → α) (l : List α) (i : Nat) (h : i + 1 < l.length) :
    (updateLast f l).get? i = l.get? i := by
  induction l generalizing i with
  | nil => rfl
  | cons a rest ih =>
    cases rest with
    | nil => simp at h
    | cons b t =>
      cases i with
      | zero => rfl
      | succ j =>
        have hj : j + 1 < (b :: t).length := by simpa using Nat.lt_of_succ_lt_succ h
        simpa [updateLast] using ih j hj

theorem lastPkgRefs_update (doc : Rdf.Document)
    (g : List Rdf.ExternalPackageRef → List Rdf.ExternalPackageRef)
    (h : doc.packages ≠ []) :
    Rdf.lastPkgRefs (Rdf.updateLastPkg doc (fun p => { p with pkg_ext_refs := g p.pkg_ext_refs })) =
      g (Rdf.lastPkgRefs doc) := by
  unfold Rdf.lastPkgRefs Rdf.updateLastPkg
  cases hl : doc.packages.getLast? with
  | none => exact absurd (List.getLast?_eq_none_iff.mp hl) h
  | some p =>
    have h1 : (updateLast (fun p => { p with pkg_ext_refs := g p.pkg_ext_refs })
        doc.packages).getLast? = some { p with pkg_ext_refs := g p.pkg_ext_refs } := by
      rw [updateLast_getLast?, hl]
      rfl
    rw [getLastD_of_getLast? _ _ _ h1, getLastD_of_getLast? _ _ _ hl]

theorem package_exists_ne_nil (doc : Rdf.Document) (h : Rdf.package_exists doc = true) :
    doc.packages ≠ [] := by
  simpa [Rdf.package_exists, List.isEmpty_iff] using h

theorem cat_refs_cases (vC : String → Bool) (b : Rdf.Builder) (doc : Rdf.Document) (c : String) :
    Rdf.lastPkgRefs (Rdf.set_pkg_ext_ref_category vC b doc c).doc = Rdf.lastPkgRefs doc
  ∨ (∃ x, Rdf.lastPkgRefs (Rdf.set_pkg_ext_ref_category vC b doc c).doc =
      Rdf.lastPkgRefs doc ++ [x])
  ∨ (((Rdf.lastPkgRefs doc).getLastD {}).category = none ∧
      Rdf.lastPkgRefs (Rdf.set_pkg_ext_ref_category vC b doc c).doc =
        updateLast (fun r => { r with category := some (Rdf.normalizeCategory c) })
          (Rdf.lastPkgRefs doc)) := by
  cases hpk : Rdf.package_exists doc with
  | false =>
    left
    simp [Rdf.set_pkg_ext_ref_category, hpk]
  | true =>
    have hne := package_exists_ne_nil doc hpk
    cases hv : vC (Rdf.normalizeCategory c) with
    | false =>
      left
      simp [Rdf.set_pkg_ext_ref_category, hpk, hv]
    | true =>
      cases hcond : (!(Rdf.lastPkgRefs doc).isEmpty &&
          ((Rdf.lastPkgRefs doc).getLastD {}).category.isNone) with
      | true =>
        right; right
        have hres : (Rdf.set_pkg_ext_ref_category vC b doc c).doc =
            Rdf.updateLastPkg doc (fun p =>
              { p with
                  pkg_ext_refs := updateLast
                    (fun r => { r with category := some (Rdf.normalizeCategory c) })
                    p.pkg_ext_refs }) := by
          simp only [Rdf.set_pkg_ext_ref_category, hpk, hv, hcond, Bool.not_true,
            Bool.false_eq_true, if_false, eq_self_iff_true, if_true]
        constructor
        · have hb := (Bool.and_eq_true _ _).mp hcond
          exact Option.isNone_iff_eq_none.mp hb.2
        · rw [hres]
          exact lastPkgRefs_update doc
            (fun rs => updateLast
              (fun r => { r with category := some (Rdf.normalizeCategory c) }) rs) hne
      | false =>
        right; left
        refine ⟨{ category := some (Rdf.normalizeCategory c) }, ?_⟩
        have hres : (Rdf.set_pkg_ext_ref_category vC b doc c).doc =
            Rdf.updateLastPkg doc (fun p =>
              { p with pkg_ext_refs :=
                  p.pkg_ext_refs ++ [{ category := some (Rdf.normalizeCategory c) }] }) := by
          simp only [Rdf.set_pkg_ext_ref_category, hpk, hv, hcond, Bool.not_true,
            Bool.false_eq_true, if_false, eq_self_iff_true, if_true]
        rw [hres]
        exact lastPkgRefs_update doc
          (fun rs => rs ++ [{ category := some (Rdf.normalizeCategory c) }]) hne

theorem typ_refs_cases (vT : String → Bool) (b : Rdf.Builder) (doc : Rdf.Document) (t : String) :
    Rdf.lastPkgRefs (Rdf.set_pkg_ext_ref_type vT b doc t).doc = Rdf.lastPkgRefs doc
  ∨ (∃ x, Rdf.lastPkgRefs (Rdf.set_pkg_ext_ref_type vT b doc t).doc =
      Rdf.lastPkgRefs doc ++ [x])
  ∨ (((Rdf.lastPkgRefs doc).getLastD {}).pkg_ext_ref_type = none ∧
      Rdf.lastPkgRefs (Rdf.set_pkg_ext_ref_type vT b doc t).doc =
        updateLast (fun r => { r with pkg_ext_ref_type := some (Rdf.normalizeExtRefType t) })
          (Rdf.lastPkgRefs doc)) := by
  cases hpk : Rdf.package_exists doc with
  | false =>
    left
    simp [Rdf.set_pkg_ext_ref_type, hpk]
  | true =>
    have hne := package_exists_ne_nil doc hpk
    cases hv : vT (Rdf.normalizeExtRefType t) with
    | false =>
      left
      simp [Rdf.set_pkg_ext_ref_type, hpk, hv]
    | true =>
      cases hcond : (!(Rdf.lastPkgRefs doc).isEmpty &&
          ((Rdf.lastPkgRefs doc).getLastD {}).pkg_ext_ref_type.isNone) with
      | true =>
        right; right
        have hres : (Rdf.set_pkg_ext_ref_type vT b doc t).doc =
            Rdf.updateLastPkg doc (fun p =>
              { p with
                  pkg_ext_refs := updateLast
                    (fun r => { r with pkg_ext_ref_type := some (Rdf.normalizeExtRefType t) })
                    p.pkg_ext_refs }) := by
          simp only [Rdf.set_pkg_ext_ref_type, hpk, hv, hcond, Bool.not_true,
            Bool.false_eq_true, if_false, eq_self_iff_true, if_true]
        constructor
        · have hb := (Bool.and_eq_true _ _).mp hcond
          exact Option.isNone_iff_eq_none.mp hb.2
        · rw [hres]
          exact lastPkgRefs_update doc
            (fun rs => updateLast
              (fun r => { r with pkg_ext_ref_type := some (Rdf.normalizeExtRefType t) }) rs) hne
      | false =>
        right; left
        refine ⟨{ pkg_ext_ref_type := some (Rdf.normalizeExtRefType t) }, ?_⟩
        have hres : (Rdf.set_pkg_ext_ref_type vT b doc t).doc =
            Rdf.updateLastPkg doc (fun p =>
              { p with pkg_ext_refs :=
                  p.pkg_ext_refs ++ [{ pkg_ext_ref_type := some (Rdf.normalizeExtRefType t) }] }) := by
          simp only [Rdf.set_pkg_ext_ref_type, hpk, hv, hcond, Bool.not_true,
            Bool.false_eq_true, if_false, eq_self_iff_true, if_true]
        rw [hres]
        exact lastPkgRefs_update doc
          (fun rs => rs ++ [{ pkg_ext_ref_type := some (Rdf.normalizeExtRefType t) }]) hne

theorem op_preserve_get? (vC vT : String → Bool) (b : Rdf.Builder) (doc : Rdf.Document)
    (op : Rdf.ExtRefOp) (i : Nat) (r : Rdf.ExternalPackageRef)
    (h : (Rdf.lastPkgRefs doc).get? i = some r) (hc : Rdf.refComplete r) :
    (Rdf.lastPkgRefs (Rdf.applyExtRefOp vC vT b doc op)).get? i = some r := by
  have hlt : i < (Rdf.lastPkgRefs doc).length := by
    have := List.get?_eq_some.mp h
    exact this.1
  have hr : (Rdf.lastPkgRefs doc).get ⟨i, hlt⟩ = r := by
    have h2 := List.get?_eq_get hlt
    rw [h2] at h
    exact Option.some_inj.mp h
  cases op with
  | cat c =>
    simp only [Rdf.applyExtRefOp]
    rcases cat_refs_cases vC b doc c with hcase | ⟨x, hcase⟩ | ⟨hnone, hcase⟩
    · rw [hcase]; exact h
    · rw [hcase, List.get?_append hlt]; exact h
    · rcases Nat.lt_or_ge (i + 1) (Rdf.lastPkgRefs doc).length with hl | hl
      · rw [hcase, updateLast_get?_of_lt _ _ _ hl]; exact h
      · have hieq : i + 1 = (Rdf.lastPkgRefs doc).length := Nat.le_antisymm hlt hl
        have := get_last_index_eq_getLastD (Rdf.lastPkgRefs doc) {} i hlt hieq
        rw [hr] at this
        rw [← this] at hnone
        exact absurd hnone hc.1
  | typ t =>
    simp only [Rdf.applyExtRefOp]
    rcases typ_refs_cases vT b doc t with hcase | ⟨x, hcase⟩ | ⟨hnone, hcase⟩
    · rw [hcase]; exact h
    · rw [hcase, List.get?_append hlt]; exact h
    · rcases Nat.lt_or_ge (i + 1) (Rdf.lastPkgRefs doc).length with hl | hl
      · rw [hcase, updateLast_get?_of_lt _ _ _ hl]; exact h
      · have hieq : i + 1 = (Rdf.lastPkgRefs doc).length := Nat.le_antisymm hlt hl
        have := get_last_index_eq_getLastD (Rdf.lastPkgRefs doc) {} i hlt hieq
        rw [hr] at this
        rw [← this] at hnone
        exact absurd hnone hc.2

theorem ops_preserve_get? (vC vT : String → Bool) (b : Rdf.Builder) (ops : List Rdf.ExtRefOp) :
    ∀ (doc : Rdf.Document) (i : Nat) (r : Rdf.ExternalPackageRef),
    (Rdf.lastPkgRefs doc).get? i = some r → Rdf.refComplete r →
    (Rdf.lastPkgRefs (Rdf.applyExtRefOps vC vT b doc ops)).get? i = some r := by
  induction ops with
  | nil => intro doc i r h _; exact h
  | cons op rest ih =>
    intro doc i r h hc
    exact ih (Rdf.applyExtRefOp vC vT b doc op) i r (op_preserve_get? vC vT b doc op i r h hc) hc

/-- Claim C6: external package references are a two-phase append — the
category setter attaches to the last reference exactly when its category is
still unset and appends a new reference otherwise; the type setter attaches
exactly when the last type is still unset and appends otherwise; and a
reference that has both category and type present is never modified by any
later sequence of category/type operations. -/
theorem claim6_ext_ref_two_phase :
    ∀ (vC vT : String → Bool) (b : Rdf.Builder) (doc : Rdf.Document) (c t : String),
    Rdf.package_exists doc = true →
    (vC (Rdf.normalizeCategory c) = true →
      Rdf.lastPkgRefs (Rdf.set_pkg_ext_ref_category vC b doc c).doc =
        (if (!(Rdf.lastPkgRefs doc).isEmpty &&
             ((Rdf.lastPkgRefs doc).getLastD {}).category.isNone) = true
         then updateLast (fun r => { r with category := some (Rdf.normalizeCategory c) })
                (Rdf.lastPkgRefs doc)
         else Rdf.lastPkgRefs doc ++ [{ category := some (Rdf.normalizeCategory c) }]))
  ∧ (vT (Rdf.normalizeExtRefType t) = true →
      Rdf.lastPkgRefs (Rdf.set_pkg_ext_ref_type vT b doc t).doc =
        (if (!(Rdf.lastPkgRefs doc).isEmpty &&
             ((Rdf.lastPkgRefs doc).getLastD {}).pkg_ext_ref_type.isNone) = true
         then updateLast (fun r => { r with pkg_ext_ref_type := some (Rdf.normalizeExtRefType t) })
                (Rdf.lastPkgRefs doc)
         else Rdf.lastPkgRefs doc ++ [{ pkg_ext_ref_type := some (Rdf.normalizeExtRefType t) }]))
  ∧ (∀ (ops : List Rdf.ExtRefOp) (i : Nat) (hi : i < (Rdf.lastPkgRefs doc).length)
       (hi2 : i < (Rdf.lastPkgRefs (Rdf.applyExtRefOps vC vT b doc ops)).length),
       Rdf.refComplete ((Rdf.lastPkgRefs doc).get ⟨i, hi⟩) →
       (Rdf.lastPkgRefs (Rdf.applyExtRefOps vC vT b doc ops)).get ⟨i, hi2⟩ =
         (Rdf.lastPkgRefs doc).get ⟨i, hi⟩) := by
  intro vC vT b doc c t hpk
  have hne := package_exists_ne_nil doc hpk
  refine ⟨?_, ?_, ?_⟩
  · intro hv
    cases hcond : (!(Rdf.lastPkgRefs doc).isEmpty &&
        ((Rdf.lastPkgRefs doc).getLastD {}).category.isNone) with
    | true =>
      rw [if_pos rfl]
      have hres : (Rdf.set_pkg_ext_ref_category vC b doc c).doc =
          Rdf.updateLastPkg doc (fun p =>
            { p with
                pkg_ext_refs := updateLast
                  (fun r => { r with category := some (Rdf.normalizeCategory c) })
                  p.pkg_ext_refs }) := by
        simp only [Rdf.set_pkg_ext_ref_category, hpk, hv, hcond, Bool.not_true,
          Bool.false_eq_true, if_false, eq_self_iff_true, if_true]
      rw [hres]
      exact lastPkgRefs_update doc
        (fun rs => updateLast
          (fun r => { r with category := some (Rdf.normalizeCategory c) }) rs) hne
    | false =>
      rw [if_neg (by simp)]
      have hres : (Rdf.set_pkg_ext_ref_category vC b doc c).doc =
          Rdf.updateLastPkg doc (fun p =>
            { p with
                pkg_ext_refs := p.pkg_ext_refs ++
                  [{ category := some (Rdf.normalizeCategory c) }] }) := by
        simp only [Rdf.set_pkg_ext_ref_category, hpk, hv, hcond, Bool.not_true,
          Bool.false_eq_true, if_false, eq_self_iff_true, if_true]
      rw [hres]
      exact lastPkgRefs_update doc
        (fun rs => rs ++ [{ category := some (Rdf.normalizeCategory c) }]) hne
  · intro hv
    cases hcond : (!(Rdf.lastPkgRefs doc).isEmpty &&
        ((Rdf.lastPkgRefs doc).getLastD {}).pkg_ext_ref_type.isNone) with
    | true =>
      rw [if_pos rfl]
      have hres : (Rdf.set_pkg_ext_ref_type vT b doc t).doc =
          Rdf.updateLastPkg doc (fun p =>
            { p with
                pkg_ext_refs := updateLast
                  (fun r => { r with pkg_ext_ref_type := some (Rdf.normalizeExtRefType t) })
                  p.pkg_ext_refs }) := by
        simp only [Rdf.set_pkg_ext_ref_type, hpk, hv, hcond, Bool.not_true,
          Bool.false_eq_true, if_false, eq_self_iff_true, if_true]
      rw [hres]
      exact lastPkgRefs_update doc
        (fun rs => updateLast
          (fun r => { r with pkg_ext_ref_type := some (Rdf.normalizeExtRefType t) }) rs) hne
    | false =>
      rw [if_neg (by simp)]
      have hres : (Rdf.set_pkg_ext_ref_type vT b doc t).doc =
          Rdf.updateLastPkg doc (fun p =>
            { p with
                pkg_ext_refs := p.pkg_ext_refs ++
                  [{ pkg_ext_ref_type := some (Rdf.normalizeExtRefType t) }] }) := by
        simp only [Rdf.set_pkg_ext_ref_type, hpk, hv, hcond, Bool.not_true,
          Bool.false_eq_true, if_false, eq_self_iff_true, if_true]
      rw [hres]
      exact lastPkgRefs_update doc
        (fun rs => rs ++ [{ pkg_ext_ref_type := some (Rdf.normalizeExtRefType t) }]) hne
  · intro ops i hi hi2 hcomp
    have h := ops_preserve_get? vC vT b ops doc i ((Rdf.lastPkgRefs doc).get ⟨i, hi⟩)
      (List.get?_eq_get hi) hcomp
    have h2 := List.get?_eq_get hi2
    rw [h2] at h
    exact Option.some_inj.mp h

/-- Claim C6 witness. -/
theorem claim6_witness :
    Rdf.package_exists { packages := [{}] } = true ∧
    Rdf.lastPkgRefs (Rdf.set_pkg_ext_ref_category (fun _ => true) {}
      { packages := [{}] } "SECURITY").doc = [{ category := some "SECURITY" }] := by
  refine ⟨rfl, ?_⟩
  have h := (claim6_ext_ref_two_phase (fun _ => true) (fun _ => true) {}
    { packages := [{}] } "SECURITY" "cpe23Type" rfl).1 rfl
  rw [h]
  decide

theorem pyStrip_nil : pyStrip [] = [] := rfl

theorem actor_msg_lengths :
    ∀ s : String, (ActorP.toolNoName s).length = 28 + s.length ∧
      (ActorP.personNoName s).length = 30 + s.length ∧
      (ActorP.orgNoName s).length = 36 + s.length ∧
      (ActorP.noMatchMsg s).length = 57 + s.length := by
  intro s
  have e1 : ("No name for Tool provided: " : String).length = 27 := by decide
  have e2 : ("No name for Person provided: " : String).length = 29 := by decide
  have e3 : ("No name for Organization provided: " : String).length = 35 := by decide
  have e4 : ("." : String).length = 1 := by decide
  have e5 : ("Actor " : String).length = 6 := by decide
  have e6 : (" doesn" : String).length = 6 := by decide
  have e7 : ("\x27" : String).length = 1 := by decide
  have e8 : ("t match any of person, organization or tool." : String).length = 44 := by decide
  refine ⟨?_, ?_, ?_, ?_⟩ <;>
    simp only [ActorP.toolNoName, ActorP.personNoName, ActorP.orgNoName, ActorP.noMatchMsg,
      String.length_append, e1, e2, e3, e4, e5, e6, e7, e8] <;>
    omega

/-- Claim C7: the actor sub-parser tries Tool, Person, Organization in that
order and the first match wins; the captured name is whitespace-trimmed; a
matched pattern whose trimmed name is empty fails with a message distinct
from the no-pattern-matched failure; and the optional parenthesized email
yields no email exactly when it is absent or blank after stripping. -/
theorem claim7_actor_dispatch (s : String) :
    (∀ g1, ActorP.toolMatch s = some g1 →
      ActorP.parse_actor s =
        (if String.mk (pyStrip g1) = "" then .error [ActorP.toolNoName s]
         else .ok (.tool (String.mk (pyStrip g1)))))
  ∧ (ActorP.toolMatch s = none → ∀ g1 g4, ActorP.personMatch s = some (g1, g4) →
      ActorP.parse_actor s =
        (if String.mk (pyStrip g1) = "" then .error [ActorP.personNoName s]
         else .ok (.person (String.mk (pyStrip g1)) (ActorP.get_email_or_none g4))))
  ∧ (ActorP.toolMatch s = none → ActorP.personMatch s = none →
      ∀ g1 g4, ActorP.orgMatch s = some (g1, g4) →
      ActorP.parse_actor s =
        (if String.mk (pyStrip g1) = "" then .error [ActorP.orgNoName s]
         else .ok (.organization (String.mk (pyStrip g1)) (ActorP.get_email_or_none g4))))
  ∧ (ActorP.toolMatch s = none → ActorP.personMatch s = none → ActorP.orgMatch s = none →
      ActorP.parse_actor s = .error [ActorP.noMatchMsg s])
  ∧ (ActorP.toolNoName s ≠ ActorP.noMatchMsg s ∧ ActorP.personNoName s ≠ ActorP.noMatchMsg s ∧
      ActorP.orgNoName s ≠ ActorP.noMatchMsg s)
  ∧ (∀ g4, ActorP.get_email_or_none g4 = none ↔ (g4 = none ∨ pyStrip (g4.getD []) = [])) := by
  refine ⟨?_, ?_, ?_, ?_, ?_, ?_⟩
  · intro g1 h
    simp only [ActorP.parse_actor, h]
  · intro ht g1 g4 h
    simp only [ActorP.parse_actor, ht, h]
  · intro ht hp g1 g4 h
    simp only [ActorP.parse_actor, ht, hp, h]
  · intro ht hp ho
    simp only [ActorP.parse_actor, ht, hp, ho]
  · obtain ⟨l1, l2, l3, l4⟩ := actor_msg_lengths s
    refine ⟨?_, ?_, ?_⟩ <;> intro h <;>
      first
      | exact absurd (congrArg String.length h) (by omega)
  · intro g4
    cases g4 with
    | none => simp [ActorP.get_email_or_none]
    | some e =>
      simp only [ActorP.get_email_or_none, Option.getD_some]
      by_cases hp : pyStrip e = []
      · have he : (pyStrip e).isEmpty = true := by simp [hp]
        simp [he, hp]
      · have he : (pyStrip e).isEmpty = false := by simpa [List.isEmpty_iff] using hp
        have hee : e.isEmpty = false := by
          cases e with
          | nil => exact absurd pyStrip_nil hp
          | cons a t => rfl
        simp [he, hee, hp]

/-- Claim C7 witness. -/
theorem claim7_witness :
    ActorP.toolMatch "Tool: cmake" = some "cmake".data ∧
    ActorP.parse_actor "Tool: cmake" = .ok (.tool "cmake") := by
  refine ⟨by decide, ?_⟩
  have h := (claim7_actor_dispatch "Tool: cmake").1 "cmake".data (by decide)
  rw [h]
  rfl
